import Mathlib

/-!
Shallow embedding of `flight_parser.py` (flight schedule parser and query
tool) together with proofs about the claims of its specification.

Modelling conventions:
* Python `str` values become Lean `String`; character-class predicates
  (`isalnum`, `isupper`, `isalpha`, `str.strip`, whitespace in regexes)
  are modelled over their ASCII behaviour, which is what every string
  appearing in the source and its data format uses.
* Python `float` becomes `PyFloat`: an exact scaled decimal
  `finite num scale` (value `num / 10 ^ scale`), plus `inf`, `neginf`
  and `nan`.  This keeps the sign/ordering behaviour of CPython's
  comparisons (every comparison involving `nan` is false) while
  idealising away binary rounding and overflow, which no claim depends
  on.
* A file's content is modelled as its list of lines, post universal-
  newline decoding (text mode `open` translates `\r`/`\r\n` to `\n`),
  with the trailing `"\n"` already removed, exactly what the loop
  `for line in f: raw_line = line.rstrip("\n")` produces.
* A directory is modelled as `Option` of a listing of `(name, lines)`
  entries: `none` models a missing path (`os.listdir` raising
  `FileNotFoundError`, which aborts the run).
-/

/-- Python ASCII whitespace, the characters stripped by `str.strip()` and
matched by `\s` in `re` (restricted to ASCII as discussed above). -/
def pyWS (c : Char) : Bool :=
  c = ' ' || c = '\t' || c = '\n' || c = '\r' || c = '\x0b' || c = '\x0c'

/-- Strip leading whitespace from a character list. -/
def stripL (l : List Char) : List Char := l.dropWhile pyWS

/-- Strip leading and trailing whitespace from a character list. -/
def stripList (l : List Char) : List Char :=
  ((l.dropWhile pyWS).reverse.dropWhile pyWS).reverse

/-- Python `str.strip()` (used at `flight_parser.py:126-128` and for blank
line detection at line 222). -/
def pyStrip (s : String) : String := String.mk (stripList s.data)

/-- Python `str.lstrip()` (`flight_parser.py:225`). -/
def pyLStrip (s : String) : String := String.mk (stripL s.data)

/-- Python `stripped.startswith("#")` (`flight_parser.py:228`). -/
def startsHash (s : String) : Bool :=
  match s.data with
  | '#' :: _ => true
  | _ => false

/-- One character of Python `str.isalnum()` (ASCII part). -/
def pyIsAlnumChar (c : Char) : Bool := c.isAlpha || c.isDigit

/-- Python `str.isalnum()` (`flight_parser.py:131`): non-empty and all
characters alphanumeric. -/
def pyIsAlnum (s : String) : Bool := !s.data.isEmpty && s.data.all pyIsAlnumChar

/-- Python `str.isalpha()` (`flight_parser.py:139`): non-empty and all
characters alphabetic. -/
def pyIsAlpha (s : String) : Bool := !s.data.isEmpty && s.data.all Char.isAlpha

/-- Python `str.isupper()` (`flight_parser.py:139`): at least one cased
character and no lowercase cased character. -/
def pyIsUpper (s : String) : Bool :=
  s.data.any Char.isUpper && s.data.all (fun c => !c.isLower)

/-- Python `str.lower()` (`flight_parser.py:281`). -/
def pyLower (s : String) : String := String.mk (s.data.map Char.toLower)

/-- A parsed `datetime` value at the precision of the fixed format
`"%Y-%m-%d %H:%M"` (`DATETIME_FORMAT`, `flight_parser.py:40`). -/
structure DateTime where
  year : Nat
  month : Nat
  day : Nat
  hour : Nat
  minute : Nat
deriving DecidableEq, Repr

/-- Strict lexicographic order on datetimes, as CPython compares
`datetime` objects. -/
def dtLt (a b : DateTime) : Bool :=
  if a.year ≠ b.year then a.year < b.year
  else if a.month ≠ b.month then a.month < b.month
  else if a.day ≠ b.day then a.day < b.day
  else if a.hour ≠ b.hour then a.hour < b.hour
  else a.minute < b.minute

/-- `a <= b` on datetimes (total order, so `a ≤ b ↔ ¬ b < a`). -/
def dtLe (a b : DateTime) : Bool := !(dtLt b a)

/-- Decimal value of a digit run, skipping the `_` separators Python
permits in numeric literals. -/
def digitsVal (cs : List Char) : Nat :=
  cs.foldl (fun a c => if c == '_' then a else a * 10 + (c.toNat - 48)) 0

/-- Gregorian leap year, as `datetime` validates the day of month. -/
def isLeap (y : Nat) : Bool := (y % 4 == 0 && y % 100 != 0) || y % 400 == 0

/-- Number of days in a month, as `datetime` validates constructor
arguments. -/
def daysInMonth (y m : Nat) : Nat :=
  if m = 2 then (if isLeap y then 29 else 28)
  else if m = 4 ∨ m = 6 ∨ m = 9 ∨ m = 11 then 30 else 31

/-- `datetime.strptime(s, "%Y-%m-%d %H:%M")` (`flight_parser.py:159,164`,
`343-344`, `353-354`), returning `none` where CPython raises
`ValueError`.  CPython compiles the format to the regex
`\d\d\d\d-(1[0-2]|0[1-9]|[1-9])-(3[01]|[12]\d|0[1-9]|[1-9])\s+(2[0-3]|[0-1]\d|\d):([0-5]\d|\d)`
anchored on the whole string; because each numeric field is followed by a
non-digit, backtracking acceptance is equivalent to: the maximal digit
run must have the stated length and value range.  The `datetime`
constructor then rejects year 0 and days past the end of the month. -/
def pyStrptime (s : String) : Option DateTime :=
  let cs := s.data
  let p1 := cs.span Char.isDigit
  if p1.1.length ≠ 4 then none else
  match p1.2 with
  | '-' :: r2 =>
    let p2 := r2.span Char.isDigit
    if p2.1.length = 0 ∨ 2 < p2.1.length then none else
    let mv := digitsVal p2.1
    if mv < 1 ∨ 12 < mv then none else
    match p2.2 with
    | '-' :: r4 =>
      let p3 := r4.span Char.isDigit
      if p3.1.length = 0 ∨ 2 < p3.1.length then none else
      let dv := digitsVal p3.1
      if dv < 1 ∨ 31 < dv then none else
      let p4 := p3.2.span pyWS
      if p4.1.length = 0 then none else
      let p5 := p4.2.span Char.isDigit
      if p5.1.length = 0 ∨ 2 < p5.1.length then none else
      let hv := digitsVal p5.1
      if 23 < hv then none else
      match p5.2 with
      | ':' :: r8 =>
        let p6 := r8.span Char.isDigit
        if p6.1.length = 0 ∨ 2 < p6.1.length then none else
        let miv := digitsVal p6.1
        if 59 < miv then none else
        if p6.2 ≠ [] then none else
        let yv := digitsVal p1.1
        if yv < 1 then none else
        if daysInMonth yv mv < dv then none else
        some ⟨yv, mv, dv, hv, miv⟩
      | _ => none
    | _ => none
  | _ => none

/-- Model of a CPython `float` value: an exact scaled decimal
`finite num scale` with value `num / 10 ^ scale`, or one of the special
values `inf`, `-inf`, `nan`. -/
inductive PyFloat where
  | finite (num : Int) (scale : Nat)
  | inf
  | neginf
  | nan
deriving DecidableEq, Repr

/-- The float `0.0` used implicitly by the `price_val <= 0` test. -/
def pyZero : PyFloat := PyFloat.finite 0 0

/-- CPython `<=` on floats.  Any comparison involving `nan` is false;
finite values compare by cross-multiplied exact value. -/
def pyFloatLe : PyFloat → PyFloat → Bool
  | .nan, _ => false
  | _, .nan => false
  | .neginf, _ => true
  | _, .neginf => false
  | _, .inf => true
  | .inf, _ => false
  | .finite m k, .finite n l => decide (m * (10 : Int) ^ l ≤ n * (10 : Int) ^ k)

/-- CPython `>` on floats.  Any comparison involving `nan` is false. -/
def pyFloatGt : PyFloat → PyFloat → Bool
  | .nan, _ => false
  | _, .nan => false
  | .inf, .inf => false
  | .inf, _ => true
  | _, .inf => false
  | .neginf, _ => false
  | _, .neginf => true
  | .finite m k, .finite n l => decide (n * (10 : Int) ^ k < m * (10 : Int) ^ l)

/-- CPython `<` on floats. -/
def pyFloatLt (a b : PyFloat) : Bool := pyFloatGt b a

/-- Splits an optional leading `+`/`-` sign off a numeric token, returning
`(isNegative, rest)`. -/
def splitSign : List Char → Bool × List Char
  | '+' :: r => (false, r)
  | '-' :: r => (true, r)
  | r => (false, r)

/-- A digit or the `_` separator allowed inside Python numeric literals. -/
def isDigitU (c : Char) : Bool := c.isDigit || c == '_'

/-- Validity of the tail of a digit run, with `prevU` recording whether
the previous character was an underscore: every `_` must sit between two
digits (Python literal grammar `digit (["_"] digit)*`). -/
def digitRunOkAux (prevU : Bool) : List Char → Bool
  | [] => !prevU
  | c :: rest =>
    if c == '_' then !prevU && digitRunOkAux true rest
    else c.isDigit && digitRunOkAux false rest

/-- Validity of a full digit run: non-empty, starts with a digit, and
underscores only between digits. -/
def digitRunOk : List Char → Bool
  | [] => false
  | c :: rest => c.isDigit && digitRunOkAux false rest

/-- Number of actual digits in a run (underscores excluded). -/
def countDigits (cs : List Char) : Nat := (cs.filter Char.isDigit).length

/-- Combine a parsed mantissa (integer value `mant`, `k` digits after the
decimal point) with a decimal exponent `e` into a `PyFloat`. -/
def mkFinite (neg : Bool) (mant k : Nat) (e : Int) : PyFloat :=
  let m : Int := ((mant * 10 ^ e.toNat : Nat) : Int)
  PyFloat.finite (if neg then -m else m) (k + (-e).toNat)

/-- Parse the signed digit run after `e`/`E` of a float literal. -/
def parseExpDigits (neg : Bool) (mant k : Nat) (r : List Char) : Option PyFloat :=
  match splitSign r with
  | (esign, r2) =>
    match r2.span isDigitU with
    | (ed, r3) =>
      if digitRunOk ed && r3.isEmpty then
        some (mkFinite neg mant k
          (if esign then -(digitsVal ed : Int) else (digitsVal ed : Int)))
      else none

/-- Parse the optional exponent suffix of a float literal and finish. -/
def parseExpPart (neg : Bool) (mant k : Nat) : List Char → Option PyFloat
  | [] => some (mkFinite neg mant k 0)
  | 'e' :: r => parseExpDigits neg mant k r
  | 'E' :: r => parseExpDigits neg mant k r
  | _ => none

/-- Parse the fractional part (after the `.`) and then the exponent of a
float literal; `ip` is the integer-part digit run. -/
def parseFrac (neg : Bool) (ip r2 : List Char) : Option PyFloat :=
  match r2.span isDigitU with
  | (fp, r3) =>
    if ip.isEmpty then
      if digitRunOk fp then
        parseExpPart neg (digitsVal fp) (countDigits fp) r3
      else none
    else
      if digitRunOk ip && (fp.isEmpty || digitRunOk fp) then
        parseExpPart neg (digitsVal ip * 10 ^ countDigits fp + digitsVal fp)
          (countDigits fp) r3
      else none

/-- Parse the numeric body of a float literal:
`(digitpart ["." [digitpart]] | "." digitpart) [exponent]`. -/
def parseNumber (neg : Bool) (cs : List Char) : Option PyFloat :=
  match cs.span isDigitU with
  | (ip, '.' :: r2) => parseFrac neg ip r2
  | (ip, r) => if digitRunOk ip then parseExpPart neg (digitsVal ip) 0 r else none

/-- CPython `float(s)` (`flight_parser.py:184`, `363-364`), returning
`none` where it raises `ValueError`: strips whitespace, takes an optional
sign, recognises `inf`/`infinity`/`nan` case-insensitively, otherwise
parses a decimal literal with optional fraction, exponent and `_` digit
separators. -/
def pyParseFloat (s : String) : Option PyFloat :=
  match splitSign (stripList s.data) with
  | (neg, cs1) =>
    if cs1.map Char.toLower = ['i', 'n', 'f'] ∨
        cs1.map Char.toLower = ['i', 'n', 'f', 'i', 'n', 'i', 't', 'y'] then
      some (if neg then PyFloat.neginf else PyFloat.inf)
    else if cs1.map Char.toLower = ['n', 'a', 'n'] then some PyFloat.nan
    else parseNumber neg cs1

/-- One validated flight record (`flight_parser.py:194-201`).  String
fields hold the stripped raw text; `price` holds the parsed float. -/
structure Flight where
  flight_id : String
  origin : String
  destination : String
  departure_datetime : String
  arrival_datetime : String
  price : PyFloat
deriving DecidableEq, Repr

/-- `DISALLOWED_AIRPORT_CODES` (`flight_parser.py:43`). -/
def DISALLOWED_AIRPORT_CODES : List String := ["XXX"]

/-- The flight-id rule block (`flight_parser.py:130-134`): both the
length/alphanumeric check and the too-long check fire independently. -/
def idErrs (v : String) : List String :=
  (if v.length < 2 || !(pyIsAlnum v) then ["invalid flight_id"] else []) ++
  (if 8 < v.length then ["flight_id too long (more than 8 characters)"] else [])

/-- The origin/destination rule block (`flight_parser.py:136-150`), with
`label` being `"origin"` or `"destination"` exactly as in the duplicated
source blocks. -/
def fieldCodeErrs (label v : String) : List String :=
  if v = "" then ["missing " ++ label ++ " field"]
  else if v.length ≠ 3 || !(pyIsUpper v) || !(pyIsAlpha v) then
    ["invalid " ++ label ++ " code"]
  else if v ∈ DISALLOWED_AIRPORT_CODES then ["invalid " ++ label ++ " code"]
  else []

/-- The datetime rule block (`flight_parser.py:152-180`): a combined
message when both sides fail to parse, a one-sided message otherwise, and
the ordering check only when both parse. -/
def dateErrs (d a : Option DateTime) : List String :=
  match d, a with
  | none, none => ["invalid date format"]
  | none, some _ => ["invalid departure datetime"]
  | some _, none => ["invalid arrival datetime"]
  | some dd, some aa => if dtLe aa dd then ["arrival before departure"] else []

/-- The price rule block (`flight_parser.py:182-189`): returns the parsed
value (`0.0` when unparseable) together with its error list. -/
def priceParse (s : String) : PyFloat × List String :=
  match pyParseFloat s with
  | some v => (v, if pyFloatLe v pyZero then ["negative price value"] else [])
  | none => (PyFloat.finite 0 0, ["invalid price value"])

/-- The body of `validate_flight_row` after the six fields have been
stripped (`flight_parser.py:126-202`): errors are accumulated in source
order and a record is built only when the list is empty. -/
def validateSix (fid orig dest dep arr pr : String) :
    Bool × Option Flight × List String :=
  let errs := idErrs fid ++ fieldCodeErrs "origin" orig ++
    fieldCodeErrs "destination" dest ++
    dateErrs (pyStrptime dep) (pyStrptime arr) ++ (priceParse pr).2
  if errs = [] then
    (true, some ⟨fid, orig, dest, dep, arr, (priceParse pr).1⟩, [])
  else (false, none, errs)

/-- `validate_flight_row` (`flight_parser.py:110-202`).  A row that does
not have exactly six fields short-circuits with the single reason
`"missing required fields"` (lines 121-124); otherwise each field is
stripped (lines 126-128) and the rule blocks run. -/
def validate_flight_row : List String → Bool × Option Flight × List String
  | [a, b, c, d, e, f] =>
    validateSix (pyStrip a) (pyStrip b) (pyStrip c) (pyStrip d) (pyStrip e)
      (pyStrip f)
  | _ => (false, none, ["missing required fields"])

/-- Parser modes of the CPython `_csv` reader state machine (default
dialect: delimiter `,`, quote `"`, doublequote on, non-strict). -/
inductive CsvMode where
  | startRecord
  | startField
  | inField
  | inQuoted
  | quoteInQuoted
  | eatCrnl
deriving DecidableEq, Repr

/-- One pass of the `_csv` reader over a single chunk of text.  `cur` is
the field being built, `fields` the finished fields.  Returns `none`
where the reader raises `csv.Error` (a newline character in an unquoted
field — the only error reachable on a single line in Python 3.11). -/
def csvGo : CsvMode → List Char → List String → List Char → Option (List String)
  | mode, cur, fields, [] =>
    match mode with
    | .startRecord => some fields
    | .startField => some (fields ++ [""])
    | .inField => some (fields ++ [String.mk cur])
    | .inQuoted => some (fields ++ [String.mk cur])
    | .quoteInQuoted => some (fields ++ [String.mk cur])
    | .eatCrnl => some fields
  | mode, cur, fields, c :: rest =>
    match mode with
    | .startRecord =>
      if c = '\r' ∨ c = '\n' then csvGo .eatCrnl [] fields rest
      else if c = '"' then csvGo .inQuoted [] fields rest
      else if c = ',' then csvGo .startField [] (fields ++ [""]) rest
      else csvGo .inField [c] fields rest
    | .startField =>
      if c = '\r' ∨ c = '\n' then csvGo .eatCrnl [] (fields ++ [""]) rest
      else if c = '"' then csvGo .inQuoted [] fields rest
      else if c = ',' then csvGo .startField [] (fields ++ [""]) rest
      else csvGo .inField [c] fields rest
    | .inField =>
      if c = '\r' ∨ c = '\n' then
        csvGo .eatCrnl [] (fields ++ [String.mk cur]) rest
      else if c = ',' then csvGo .startField [] (fields ++ [String.mk cur]) rest
      else csvGo .inField (cur ++ [c]) fields rest
    | .inQuoted =>
      if c = '"' then csvGo .quoteInQuoted cur fields rest
      else csvGo .inQuoted (cur ++ [c]) fields rest
    | .quoteInQuoted =>
      if c = '"' then csvGo .inQuoted (cur ++ [c]) fields rest
      else if c = ',' then csvGo .startField [] (fields ++ [String.mk cur]) rest
      else if c = '\r' ∨ c = '\n' then
        csvGo .eatCrnl [] (fields ++ [String.mk cur]) rest
      else csvGo .inField (cur ++ [c]) fields rest
    | .eatCrnl => none

/-- `next(csv.reader([raw_line]))` (`flight_parser.py:238-240`): split one
line under the default dialect, `none` where the reader raises. -/
def pyCsvSplit (s : String) : Option (List String) :=
  csvGo .startRecord [] [] s.data

/-- `CSV_HEADER` (`flight_parser.py:31-38`). -/
def CSV_HEADER : List String :=
  ["flight_id", "origin", "destination", "departure_datetime",
   "arrival_datetime", "price"]

/-- `is_header_row` (`flight_parser.py:105-107`): the stripped cells must
equal the expected header exactly. -/
def is_header_row (row : List String) : Bool :=
  decide (row.map pyStrip = CSV_HEADER)

/-- Mutable state of the `parse_csv_file` loop: accumulated valid
records, accumulated diagnostic lines, and the per-source header flag. -/
structure PState where
  valid : List Flight
  errs : List String
  seenHeader : Bool
deriving DecidableEq, Repr

/-- The diagnostic line prefix (`flight_parser.py:230-233` etc.): in
single-file mode `"Line N: "`, otherwise `"<basename> Line N: "`.  The
`path` argument stands for `os.path.basename(path)`, which in the
directory walk is just the entry name. -/
def linePre (single_file : Bool) (path : String) (lineNo : Nat) : String :=
  if single_file then "Line " ++ toString lineNo ++ ": "
  else path ++ " Line " ++ toString lineNo ++ ": "

/-- The body of the `for line_no, line in enumerate(f, start=1)` loop of
`parse_csv_file` (`flight_parser.py:218-266`) on one raw line: skip blank
lines, report comment lines, split, silently consume the first header
row, and otherwise validate. -/
def processLine (single_file : Bool) (path : String) (lineNo : Nat)
    (raw : String) (st : PState) : PState :=
  if pyStrip raw = "" then st
  else if startsHash (pyLStrip raw) then
    { st with errs := st.errs ++
        [linePre single_file path lineNo ++ raw ++
          " → comment line, ignored for data parsing"] }
  else
    match pyCsvSplit raw with
    | none =>
      { st with errs := st.errs ++
          [linePre single_file path lineNo ++ raw ++
            " → could not parse CSV line"] }
    | some row =>
      if !st.seenHeader && is_header_row row then { st with seenHeader := true }
      else
        match validate_flight_row row with
        | (true, some rec, _) => { st with valid := st.valid ++ [rec] }
        | (_, _, rowErrs) =>
          { st with errs := st.errs ++
              [linePre single_file path lineNo ++ raw ++ " → " ++
                String.intercalate ", " rowErrs] }

/-- The line loop of `parse_csv_file`, numbering lines from `n`. -/
def parseLoop (single_file : Bool) (path : String) :
    Nat → List String → PState → PState
  | _, [], st => st
  | n, l :: ls, st =>
    parseLoop single_file path (n + 1) ls (processLine single_file path n l st)

/-- `parse_csv_file` (`flight_parser.py:205-268`): the file's content is
given as its list of lines (see the header comment). -/
def parse_csv_file (path : String) (lines : List String)
    (single_file : Bool) : List Flight × List String :=
  let st := parseLoop single_file path 1 lines ⟨[], [], false⟩
  (st.valid, st.errs)

/-- `name.lower().endswith(".csv")` (`flight_parser.py:281`). -/
def endsWithCsv (name : String) : Bool :=
  List.isPrefixOf ['v', 's', 'c', '.'] ((pyLower name).data.reverse)

/-- Stable insertion of a directory entry by name, modelling Python's
stable `sorted` on the joined paths (a shared directory part keeps the
order of the base names). -/
def insertNamed (x : String × List String) :
    List (String × List String) → List (String × List String)
  | [] => [x]
  | y :: ys => if x.1 < y.1 then x :: y :: ys else y :: insertNamed x ys

/-- `sorted(csv_files)` (`flight_parser.py:284`). -/
def sortByName : List (String × List String) → List (String × List String)
  | [] => []
  | x :: xs => insertNamed x (sortByName xs)

/-- `parse_directory` (`flight_parser.py:271-289`).  `none` models a
missing directory (`os.listdir` raises `FileNotFoundError`, a fatal
abort, modelled as `Except.error`); otherwise the `.csv` entries are
selected, sorted by name and parsed in turn with `single_file=False`,
concatenating records and diagnostics. -/
def parse_directory (listing : Option (List (String × List String))) :
    Except String (List Flight × List String) :=
  match listing with
  | none => Except.error "No such file or directory"
  | some entries =>
    let csvFiles := entries.filter (fun e => endsWithCsv e.1)
    Except.ok ((sortByName csvFiles).foldl
      (fun acc e =>
        let r := parse_csv_file e.1 e.2 false
        (acc.1 ++ r.1, acc.2 ++ r.2))
      ([], []))

/-- A query specification: the JSON object as an association list from
key to the textual form of its value (`str(query[key])` coerces values
to text, and `float` accepts both numbers and numeric strings, so a
string value represents both cases faithfully). -/
def qLookup (q : List (String × String)) (k : String) : Option String :=
  (q.find? (fun p => p.1 == k)).map Prod.snd

/-- The exact-match loop body of `flight_matches_query`
(`flight_parser.py:335-338`): when `k` is present, the field text must
equal the query text. -/
def exactCheck (s : String) (q : List (String × String)) (k : String) : Bool :=
  match qLookup q k with
  | none => true
  | some v => s == v

/-- The `departure_datetime` filter (`flight_parser.py:341-348`): both
sides must parse (a parse failure is caught and means no match) and the
record's departure must not be before the query's. -/
def depCheck (f : Flight) (q : List (String × String)) : Bool :=
  match qLookup q "departure_datetime" with
  | none => true
  | some v =>
    match pyStrptime v, pyStrptime f.departure_datetime with
    | some qd, some fd => !(dtLt fd qd)
    | _, _ => false

/-- The `arrival_datetime` filter (`flight_parser.py:351-358`): both
sides must parse and the record's arrival must not be after the
query's. -/
def arrCheck (f : Flight) (q : List (String × String)) : Bool :=
  match qLookup q "arrival_datetime" with
  | none => true
  | some v =>
    match pyStrptime v, pyStrptime f.arrival_datetime with
    | some qa, some fa => !(dtLt qa fa)
    | _, _ => false

/-- The `price` filter (`flight_parser.py:361-368`): the query's value
must parse as a float (failure caught, no match) and the record's price
must not be greater. -/
def priceCheck (f : Flight) (q : List (String × String)) : Bool :=
  match qLookup q "price" with
  | none => true
  | some v =>
    match pyParseFloat v with
    | some qp => !(pyFloatGt f.price qp)
    | none => false

/-- `flight_matches_query` (`flight_parser.py:325-370`): the source's
sequence of early `return False` checks, as a conjunction.  All
constraints are conjunctive; unknown keys are never consulted. -/
def flight_matches_query (f : Flight) (q : List (String × String)) : Bool :=
  exactCheck f.flight_id q "flight_id" && exactCheck f.origin q "origin" &&
    exactCheck f.destination q "destination" && depCheck f q && arrCheck f q &&
    priceCheck f q

/-- `run_queries` (`flight_parser.py:373-390`): one result pair per query
in submission order, matches in database order. -/
def run_queries (flights : List Flight) (queries : List (List (String × String))) :
    List (List (String × String) × List Flight) :=
  queries.map (fun q => (q, flights.filter (fun f => flight_matches_query f q)))

/-- The specification's reading of one query constraint set (spec §3 and
§4.4, and claim C6): every present constraint individually satisfied,
with the price bound read literally as `record price ≤ query price`. -/
def matchesSpec (f : Flight) (q : List (String × String)) : Prop :=
  (∀ v, qLookup q "flight_id" = some v → f.flight_id = v) ∧
  (∀ v, qLookup q "origin" = some v → f.origin = v) ∧
  (∀ v, qLookup q "destination" = some v → f.destination = v) ∧
  (∀ v, qLookup q "departure_datetime" = some v →
    ∃ fd qd, pyStrptime f.departure_datetime = some fd ∧
      pyStrptime v = some qd ∧ dtLe qd fd = true) ∧
  (∀ v, qLookup q "arrival_datetime" = some v →
    ∃ fa qa, pyStrptime f.arrival_datetime = some fa ∧
      pyStrptime v = some qa ∧ dtLe fa qa = true) ∧
  (∀ v, qLookup q "price" = some v →
    ∃ qp, pyParseFloat v = some qp ∧ pyFloatLe f.price qp = true)

/-- The amended reading of the same constraint set: identical except that
the price bound is `record price not greater than query price`, which
differs from `≤` exactly on `nan` operands. -/
def matchesSpecFixed (f : Flight) (q : List (String × String)) : Prop :=
  (∀ v, qLookup q "flight_id" = some v → f.flight_id = v) ∧
  (∀ v, qLookup q "origin" = some v → f.origin = v) ∧
  (∀ v, qLookup q "destination" = some v → f.destination = v) ∧
  (∀ v, qLookup q "departure_datetime" = some v →
    ∃ fd qd, pyStrptime f.departure_datetime = some fd ∧
      pyStrptime v = some qd ∧ dtLe qd fd = true) ∧
  (∀ v, qLookup q "arrival_datetime" = some v →
    ∃ fa qa, pyStrptime f.arrival_datetime = some fa ∧
      pyStrptime v = some qa ∧ dtLe fa qa = true) ∧
  (∀ v, qLookup q "price" = some v →
    ∃ qp, pyParseFloat v = some qp ∧ pyFloatGt f.price qp = false)

/-- A decimal digit as a character. -/
def digitCh : Nat → Char
  | 0 => '0' | 1 => '1' | 2 => '2' | 3 => '3' | 4 => '4'
  | 5 => '5' | 6 => '6' | 7 => '7' | 8 => '8' | _ => '9'

/-- Decimal rendering of a natural number. -/
def natToDecStr (n : Nat) : String :=
  if n = 0 then "0" else String.mk (((Nat.digits 10 n).map digitCh).reverse)

/-- Decimal rendering of an integer. -/
def intToDecStr (m : Int) : String :=
  if m < 0 then "-" ++ natToDecStr m.natAbs else natToDecStr m.natAbs

/-- Textual form of a `PyFloat`, as a float literal that `float()` parses
back to the same value (`str()` on a CPython float likewise round-trips). -/
def pyFloatToStr : PyFloat → String
  | .inf => "inf"
  | .neginf => "-inf"
  | .nan => "nan"
  | .finite m k => intToDecStr m ++ "e-" ++ natToDecStr k

/-- The six fields of a record rendered back to row text, string fields
verbatim and the price via `pyFloatToStr`. -/
def serializeFlight (r : Flight) : List String :=
  [r.flight_id, r.origin, r.destination, r.departure_datetime,
   r.arrival_datetime, pyFloatToStr r.price]

/-- The error accumulation of `validate_flight_row` on six stripped
fields, in source order. -/
def rowErrsOf (s1 s2 s3 s4 s5 s6 : String) : List String :=
  idErrs s1 ++ fieldCodeErrs "origin" s2 ++ fieldCodeErrs "destination" s3 ++
    dateErrs (pyStrptime s4) (pyStrptime s5) ++ (priceParse s6).2

theorem validateSix_eq (s1 s2 s3 s4 s5 s6 : String) :
    validateSix s1 s2 s3 s4 s5 s6 =
      if rowErrsOf s1 s2 s3 s4 s5 s6 = [] then
        (true, some ⟨s1, s2, s3, s4, s5, (priceParse s6).1⟩, [])
      else (false, none, rowErrsOf s1 s2 s3 s4 s5 s6) := rfl

theorem validate_errs_eq (f1 f2 f3 f4 f5 f6 : String) :
    (validate_flight_row [f1, f2, f3, f4, f5, f6]).2.2 =
      rowErrsOf (pyStrip f1) (pyStrip f2) (pyStrip f3) (pyStrip f4)
        (pyStrip f5) (pyStrip f6) := by
  show (validateSix _ _ _ _ _ _).2.2 = _
  rw [validateSix_eq]
  split
  · next h => rw [h]
  · rfl

theorem mem_idErrs {x : String} {v : String} (h : x ∈ idErrs v) :
    x = "invalid flight_id" ∨
      x = "flight_id too long (more than 8 characters)" := by
  unfold idErrs at h
  rcases List.mem_append.1 h with h1 | h1 <;> split at h1 <;> simp_all

theorem mem_fieldCodeErrs {x lab v : String} (h : x ∈ fieldCodeErrs lab v) :
    x = "missing " ++ lab ++ " field" ∨ x = "invalid " ++ lab ++ " code" := by
  unfold fieldCodeErrs at h
  split at h
  · simp_all
  · split at h
    · simp_all
    · split at h <;> simp_all

theorem mem_dateErrs {x : String} {d a : Option DateTime}
    (h : x ∈ dateErrs d a) :
    x = "invalid date format" ∨ x = "invalid departure datetime" ∨
      x = "invalid arrival datetime" ∨ x = "arrival before departure" := by
  unfold dateErrs at h
  rcases d with _ | dd <;> rcases a with _ | aa
  · simp_all
  · simp_all
  · simp_all
  · split at h <;> simp_all

theorem mem_priceErrs {x : String} {s : String} (h : x ∈ (priceParse s).2) :
    x = "negative price value" ∨ x = "invalid price value" := by
  unfold priceParse at h
  rcases hp : pyParseFloat s with _ | v <;> rw [hp] at h
  · simp_all
  · split at h <;> simp_all

/-- C8: a row that does not split into exactly six fields is rejected
with exactly the single reason `"missing required fields"`, and no other
rule runs on it. -/
theorem C8_field_count (fields : List String) (h : fields.length ≠ 6) :
    validate_flight_row fields = (false, none, ["missing required fields"]) := by
  rcases fields with _ | ⟨a, _ | ⟨b, _ | ⟨c, _ | ⟨d, _ | ⟨e, _ | ⟨f, _ | ⟨g, rest⟩⟩⟩⟩⟩⟩⟩ <;>
    first
    | rfl
    | exact absurd rfl h

theorem C8_witness :
    validate_flight_row ["BA2490", "LHR"] =
      (false, none, ["missing required fields"]) :=
  C8_field_count ["BA2490", "LHR"] (by decide)

/-- C1 (amended): a missing directory location is a fatal failure before
any processing, but a directory containing zero `.csv` sources is a
successful empty run returning no records and no diagnostics (after
which `main` still writes the `db.json` artifact). -/
theorem C1_amended :
    parse_directory none = Except.error "No such file or directory" ∧
    ∀ entries : List (String × List String),
      entries.filter (fun e => endsWithCsv e.1) = [] →
      parse_directory (some entries) = Except.ok ([], []) := by
  refine ⟨rfl, fun entries h => ?_⟩
  simp only [parse_directory]
  rw [h]
  rfl

/-- C1 counterexample: a directory with zero matching CSV sources is an
ordinary successful (empty) run, not a fatal precondition failure. -/
theorem C1_counterexample : parse_directory (some []) = Except.ok ([], []) := rfl

theorem C1_witness :
    parse_directory (some [("notes.txt", ["hello"])]) = Except.ok ([], []) :=
  C1_amended.2 [("notes.txt", ["hello"])] rfl

theorem mem_rowErrs_iff (x s1 s2 s3 s4 s5 s6 : String) :
    x ∈ rowErrsOf s1 s2 s3 s4 s5 s6 ↔
      x ∈ idErrs s1 ∨ x ∈ fieldCodeErrs "origin" s2 ∨
        x ∈ fieldCodeErrs "destination" s3 ∨
        x ∈ dateErrs (pyStrptime s4) (pyStrptime s5) ∨
        x ∈ (priceParse s6).2 := by
  unfold rowErrsOf
  simp [List.mem_append, or_assoc]

theorem id_mem_rowErrs (x s1 s2 s3 s4 s5 s6 : String)
    (hx : x = "invalid flight_id" ∨
      x = "flight_id too long (more than 8 characters)") :
    x ∈ rowErrsOf s1 s2 s3 s4 s5 s6 ↔ x ∈ idErrs s1 := by
  rw [mem_rowErrs_iff]
  constructor
  · rintro (h | h | h | h | h)
    · exact h
    · rcases hx with hx | hx <;> subst hx <;>
        rcases mem_fieldCodeErrs h with h2 | h2 <;> exact absurd h2 (by decide)
    · rcases hx with hx | hx <;> subst hx <;>
        rcases mem_fieldCodeErrs h with h2 | h2 <;> exact absurd h2 (by decide)
    · rcases hx with hx | hx <;> subst hx <;>
        rcases mem_dateErrs h with h2 | h2 | h2 | h2 <;> exact absurd h2 (by decide)
    · rcases hx with hx | hx <;> subst hx <;>
        rcases mem_priceErrs h with h2 | h2 <;> exact absurd h2 (by decide)
  · exact fun h => Or.inl h

theorem date_mem_rowErrs (x s1 s2 s3 s4 s5 s6 : String)
    (hx : x = "invalid date format" ∨ x = "invalid departure datetime" ∨
      x = "invalid arrival datetime" ∨ x = "arrival before departure") :
    x ∈ rowErrsOf s1 s2 s3 s4 s5 s6 ↔
      x ∈ dateErrs (pyStrptime s4) (pyStrptime s5) := by
  rw [mem_rowErrs_iff]
  constructor
  · rintro (h | h | h | h | h)
    · rcases hx with hx | hx | hx | hx <;> subst hx <;>
        rcases mem_idErrs h with h2 | h2 <;> exact absurd h2 (by decide)
    · rcases hx with hx | hx | hx | hx <;> subst hx <;>
        rcases mem_fieldCodeErrs h with h2 | h2 <;> exact absurd h2 (by decide)
    · rcases hx with hx | hx | hx | hx <;> subst hx <;>
        rcases mem_fieldCodeErrs h with h2 | h2 <;> exact absurd h2 (by decide)
    · exact h
    · rcases hx with hx | hx | hx | hx <;> subst hx <;>
        rcases mem_priceErrs h with h2 | h2 <;> exact absurd h2 (by decide)
  · exact fun h => Or.inr (Or.inr (Or.inr (Or.inl h)))

theorem idErrs_of_len9 (v : String) (h : v.length = 9)
    (ha : pyIsAlnum v = true) :
    idErrs v = ["flight_id too long (more than 8 characters)"] := by
  simp [idErrs, h, ha]

theorem idErrs_of_long_nonalnum (v : String) (h : 8 < v.length)
    (ha : pyIsAlnum v = false) :
    idErrs v =
      ["invalid flight_id", "flight_id too long (more than 8 characters)"] := by
  simp [idErrs, h, ha]

/-- C4 (amended): exactly as claimed except that the too-long reason text
is the source's full message `"flight_id too long (more than 8
characters)"`: a 9-character all-alphanumeric id yields only the too-long
reason; the id `"A$"` yields exactly `["invalid flight_id"]`; and both id
checks fire together on a long non-alphanumeric id. -/
theorem C4_amended (f1 f2 f3 f4 f5 f6 : String) :
    ((pyStrip f1).length = 9 → pyIsAlnum (pyStrip f1) = true →
      "flight_id too long (more than 8 characters)" ∈
          (validate_flight_row [f1, f2, f3, f4, f5, f6]).2.2 ∧
        "invalid flight_id" ∉ (validate_flight_row [f1, f2, f3, f4, f5, f6]).2.2) ∧
    (pyStrip f1 = "A$" →
      "invalid flight_id" ∈ (validate_flight_row [f1, f2, f3, f4, f5, f6]).2.2 ∧
        "flight_id too long (more than 8 characters)" ∉
          (validate_flight_row [f1, f2, f3, f4, f5, f6]).2.2) ∧
    (8 < (pyStrip f1).length → pyIsAlnum (pyStrip f1) = false →
      "invalid flight_id" ∈ (validate_flight_row [f1, f2, f3, f4, f5, f6]).2.2 ∧
        "flight_id too long (more than 8 characters)" ∈
          (validate_flight_row [f1, f2, f3, f4, f5, f6]).2.2) := by
  rw [validate_errs_eq]
  refine ⟨fun h9 ha => ?_, fun hid => ?_, fun h8 ha => ?_⟩
  · constructor
    · rw [id_mem_rowErrs _ _ _ _ _ _ _ (Or.inr rfl), idErrs_of_len9 _ h9 ha]
      simp
    · rw [id_mem_rowErrs _ _ _ _ _ _ _ (Or.inl rfl), idErrs_of_len9 _ h9 ha]
      decide
  · constructor
    · rw [id_mem_rowErrs _ _ _ _ _ _ _ (Or.inl rfl), hid]
      decide
    · rw [id_mem_rowErrs _ _ _ _ _ _ _ (Or.inr rfl), hid]
      decide
  · constructor
    · rw [id_mem_rowErrs _ _ _ _ _ _ _ (Or.inl rfl),
        idErrs_of_long_nonalnum _ h8 ha]
      simp
    · rw [id_mem_rowErrs _ _ _ _ _ _ _ (Or.inr rfl),
        idErrs_of_long_nonalnum _ h8 ha]
      simp

/-- C4 counterexample: for a 9-character alphanumeric id the reason list
holds the full source message, so it does not contain the exact string
`"flight_id too long"` that the claim names. -/
theorem C4_counterexample :
    (validate_flight_row ["ABCDEFGHI", "LHR", "JFK", "2025-11-14 10:30",
        "2025-11-14 13:05", "100.0"]).2.2 =
      ["flight_id too long (more than 8 characters)"] ∧
    "flight_id too long" ∉
      (validate_flight_row ["ABCDEFGHI", "LHR", "JFK", "2025-11-14 10:30",
        "2025-11-14 13:05", "100.0"]).2.2 := by
  constructor
  · decide
  · decide

theorem C4_witness :
    "invalid flight_id" ∈
        (validate_flight_row ["A$", "LHR", "JFK", "2025-11-14 10:30",
          "2025-11-14 13:05", "100.0"]).2.2 ∧
      "flight_id too long (more than 8 characters)" ∉
        (validate_flight_row ["A$", "LHR", "JFK", "2025-11-14 10:30",
          "2025-11-14 13:05", "100.0"]).2.2 :=
  (C4_amended "A$" "LHR" "JFK" "2025-11-14 10:30" "2025-11-14 13:05"
    "100.0").2.1 (by decide)

/-- C5: for any six-field row, two unparseable timestamps yield the single
combined reason `"invalid date format"` and never the one-sided messages;
exactly one unparseable side yields only the message naming that side;
and when both parse with arrival not strictly after departure the reason
`"arrival before departure"` is emitted. -/
theorem C5_date_reasons (f1 f2 f3 f4 f5 f6 : String) :
    (pyStrptime (pyStrip f4) = none → pyStrptime (pyStrip f5) = none →
      "invalid date format" ∈ (validate_flight_row [f1, f2, f3, f4, f5, f6]).2.2 ∧
        "invalid departure datetime" ∉
          (validate_flight_row [f1, f2, f3, f4, f5, f6]).2.2 ∧
        "invalid arrival datetime" ∉
          (validate_flight_row [f1, f2, f3, f4, f5, f6]).2.2) ∧
    (∀ aa, pyStrptime (pyStrip f4) = none → pyStrptime (pyStrip f5) = some aa →
      "invalid departure datetime" ∈
          (validate_flight_row [f1, f2, f3, f4, f5, f6]).2.2 ∧
        "invalid date format" ∉ (validate_flight_row [f1, f2, f3, f4, f5, f6]).2.2 ∧
        "invalid arrival datetime" ∉
          (validate_flight_row [f1, f2, f3, f4, f5, f6]).2.2) ∧
    (∀ dd, pyStrptime (pyStrip f4) = some dd → pyStrptime (pyStrip f5) = none →
      "invalid arrival datetime" ∈
          (validate_flight_row [f1, f2, f3, f4, f5, f6]).2.2 ∧
        "invalid date format" ∉ (validate_flight_row [f1, f2, f3, f4, f5, f6]).2.2 ∧
        "invalid departure datetime" ∉
          (validate_flight_row [f1, f2, f3, f4, f5, f6]).2.2) ∧
    (∀ dd aa, pyStrptime (pyStrip f4) = some dd →
      pyStrptime (pyStrip f5) = some aa → dtLe aa dd = true →
      "arrival before departure" ∈
        (validate_flight_row [f1, f2, f3, f4, f5, f6]).2.2) := by
  rw [validate_errs_eq]
  refine ⟨fun h4 h5 => ?_, fun aa h4 h5 => ?_, fun dd h4 h5 => ?_,
    fun dd aa h4 h5 hle => ?_⟩
  · rw [date_mem_rowErrs _ _ _ _ _ _ _ (Or.inl rfl),
      date_mem_rowErrs _ _ _ _ _ _ _ (Or.inr (Or.inl rfl)),
      date_mem_rowErrs _ _ _ _ _ _ _ (Or.inr (Or.inr (Or.inl rfl)))]
    rw [h4, h5]
    refine ⟨by simp [dateErrs], by simp [dateErrs], by simp [dateErrs]⟩
  · rw [date_mem_rowErrs _ _ _ _ _ _ _ (Or.inr (Or.inl rfl)),
      date_mem_rowErrs _ _ _ _ _ _ _ (Or.inl rfl),
      date_mem_rowErrs _ _ _ _ _ _ _ (Or.inr (Or.inr (Or.inl rfl)))]
    rw [h4, h5]
    refine ⟨by simp [dateErrs], by simp [dateErrs], by simp [dateErrs]⟩
  · rw [date_mem_rowErrs _ _ _ _ _ _ _ (Or.inr (Or.inr (Or.inl rfl))),
      date_mem_rowErrs _ _ _ _ _ _ _ (Or.inl rfl),
      date_mem_rowErrs _ _ _ _ _ _ _ (Or.inr (Or.inl rfl))]
    rw [h4, h5]
    refine ⟨by simp [dateErrs], by simp [dateErrs], by simp [dateErrs]⟩
  · rw [date_mem_rowErrs _ _ _ _ _ _ _ (Or.inr (Or.inr (Or.inr rfl)))]
    rw [h4, h5]
    simp [dateErrs, hle]

theorem C5_witness :
    "invalid date format" ∈
        (validate_flight_row ["BA2490", "LHR", "JFK", "nonsense", "junk",
          "100.0"]).2.2 ∧
      "invalid departure datetime" ∉
        (validate_flight_row ["BA2490", "LHR", "JFK", "nonsense", "junk",
          "100.0"]).2.2 ∧
      "invalid arrival datetime" ∉
        (validate_flight_row ["BA2490", "LHR", "JFK", "nonsense", "junk",
          "100.0"]).2.2 :=
  (C5_date_reasons "BA2490" "LHR" "JFK" "nonsense" "junk" "100.0").1
    (by decide) (by decide)

/-- C3: whenever the query constrains `departure_datetime` (resp.
`arrival_datetime`) and either the record's stored timestamp or the
query's value fails to parse under the fixed format, the predicate
evaluates to `false` (fail-closed, and in the embedding evaluation is
total, so no error is ever raised); in particular a record with an
unparseable stored departure never matches a departure-constrained
query. -/
theorem C3_fail_closed (f : Flight) (q : List (String × String)) :
    (∀ v, qLookup q "departure_datetime" = some v →
      (pyStrptime f.departure_datetime = none ∨ pyStrptime v = none) →
      flight_matches_query f q = false) ∧
    (∀ v, qLookup q "arrival_datetime" = some v →
      (pyStrptime f.arrival_datetime = none ∨ pyStrptime v = none) →
      flight_matches_query f q = false) := by
  constructor
  · intro v hv hp
    have hd : depCheck f q = false := by
      rcases hp with h1 | h1
      · rcases h2 : pyStrptime v with _ | qd <;> simp [depCheck, hv, h1, h2]
      · simp [depCheck, hv, h1]
    simp [flight_matches_query, hd]
  · intro v hv hp
    have hd : arrCheck f q = false := by
      rcases hp with h1 | h1
      · rcases h2 : pyStrptime v with _ | qa <;> simp [arrCheck, hv, h1, h2]
      · simp [arrCheck, hv, h1]
    simp [flight_matches_query, hd]

theorem C3_witness :
    flight_matches_query
      ⟨"BA2490", "LHR", "JFK", "garbage", "2025-11-14 13:05",
        PyFloat.finite 1 0⟩
      [("departure_datetime", "2025-11-14 00:00")] = false :=
  (C3_fail_closed
      ⟨"BA2490", "LHR", "JFK", "garbage", "2025-11-14 13:05",
        PyFloat.finite 1 0⟩
      [("departure_datetime", "2025-11-14 00:00")]).1
    "2025-11-14 00:00" rfl (Or.inl (by decide))

theorem of_idErrs_nil {v : String} (h : idErrs v = []) :
    2 ≤ v.length ∧ pyIsAlnum v = true ∧ v.length ≤ 8 := by
  unfold idErrs at h
  obtain ⟨h1, h2⟩ := List.append_eq_nil.1 h
  split at h1
  · simp at h1
  · split at h2
    · simp at h2
    · next hc1 _ =>
      next hc2 =>
      simp only [Bool.or_eq_true, not_or, decide_eq_true_eq,
        Bool.not_eq_true', Bool.not_eq_false] at hc1
      exact ⟨by omega, hc1.2, by omega⟩

theorem of_fieldCodeErrs_nil {lab v : String} (h : fieldCodeErrs lab v = []) :
    v ≠ "" ∧ v.length = 3 ∧ pyIsUpper v = true ∧ pyIsAlpha v = true ∧
      v ∉ DISALLOWED_AIRPORT_CODES := by
  unfold fieldCodeErrs at h
  split at h
  · simp at h
  · split at h
    · simp at h
    · split at h
      · simp at h
      · next hc1 hc2 hc3 =>
        simp only [Bool.or_eq_true, not_or, decide_eq_true_eq,
          Bool.not_eq_true', Bool.not_eq_false] at hc2
        obtain ⟨⟨hl, hu⟩, hal⟩ := hc2
        exact ⟨hc1, by omega, hu, hal, hc3⟩

theorem of_dateErrs_nil {d a : Option DateTime} (h : dateErrs d a = []) :
    ∃ dd aa, d = some dd ∧ a = some aa ∧ dtLt dd aa = true := by
  rcases d with _ | dd <;> rcases a with _ | aa <;> simp [dateErrs] at h
  refine ⟨dd, aa, rfl, rfl, ?_⟩
  simpa [dtLe] using h

theorem of_priceErrs_nil {s : String} (h : (priceParse s).2 = []) :
    pyParseFloat s = some (priceParse s).1 ∧
      pyFloatLe (priceParse s).1 pyZero = false := by
  rcases hp : pyParseFloat s with _ | v
  · simp [priceParse, hp] at h
  · have h2 : priceParse s =
        (v, if pyFloatLe v pyZero = true then ["negative price value"]
          else []) := by
      simp [priceParse, hp]
    rw [h2] at h
    rw [h2]
    split at h
    · simp at h
    · next hc =>
      have hle : pyFloatLe v pyZero = false := by simpa using hc
      exact ⟨rfl, hle⟩

theorem validateSix_valid (s1 s2 s3 s4 s5 s6 : String) (r : Flight) :
    validateSix s1 s2 s3 s4 s5 s6 = (true, some r, []) ↔
      rowErrsOf s1 s2 s3 s4 s5 s6 = [] ∧
        r = ⟨s1, s2, s3, s4, s5, (priceParse s6).1⟩ := by
  rw [validateSix_eq]
  split
  · next h =>
    constructor
    · intro he
      simp only [Prod.mk.injEq, Option.some.injEq] at he
      exact ⟨h, he.2.1.symm⟩
    · rintro ⟨-, hr⟩
      rw [hr]
  · next h =>
    constructor
    · intro he
      simp only [Prod.mk.injEq] at he
      exact absurd he.1 (by decide)
    · rintro ⟨h2, -⟩
      exact absurd h2 h

/-- C2 (amended): every record returned by the validator has a 2-8
character alphanumeric id, 3-letter uppercase alphabetic origin and
destination codes outside the disallowed set, and two parseable
timestamps with arrival strictly after departure; its price is a parsed
number on which the `<= 0` test is false — positive, except that a `nan`
price also passes that test.  The validator returns either such a record
with an empty reason list, or no record with a non-empty reason list. -/
theorem C2_amended :
    (∀ f1 f2 f3 f4 f5 f6 : String, ∀ r : Flight,
      validate_flight_row [f1, f2, f3, f4, f5, f6] = (true, some r, []) →
      (2 ≤ r.flight_id.length ∧ pyIsAlnum r.flight_id = true ∧
          r.flight_id.length ≤ 8) ∧
        (r.origin.length = 3 ∧ pyIsUpper r.origin = true ∧
          pyIsAlpha r.origin = true ∧ r.origin ∉ DISALLOWED_AIRPORT_CODES) ∧
        (r.destination.length = 3 ∧ pyIsUpper r.destination = true ∧
          pyIsAlpha r.destination = true ∧
          r.destination ∉ DISALLOWED_AIRPORT_CODES) ∧
        (∃ dd aa, pyStrptime r.departure_datetime = some dd ∧
          pyStrptime r.arrival_datetime = some aa ∧ dtLt dd aa = true) ∧
        pyFloatLe r.price pyZero = false) ∧
    (∀ fields : List String,
      (∃ r, validate_flight_row fields = (true, some r, [])) ∨
        (∃ errs, validate_flight_row fields = (false, none, errs) ∧
          errs ≠ [])) := by
  constructor
  · intro f1 f2 f3 f4 f5 f6 r h
    rw [show validate_flight_row [f1, f2, f3, f4, f5, f6] =
        validateSix (pyStrip f1) (pyStrip f2) (pyStrip f3) (pyStrip f4)
          (pyStrip f5) (pyStrip f6) from rfl,
      validateSix_valid] at h
    obtain ⟨hnil, hr⟩ := h
    unfold rowErrsOf at hnil
    obtain ⟨h1, h5p⟩ := List.append_eq_nil.1 hnil
    obtain ⟨h1, h4p⟩ := List.append_eq_nil.1 h1
    obtain ⟨h1, h3p⟩ := List.append_eq_nil.1 h1
    obtain ⟨h1p, h2p⟩ := List.append_eq_nil.1 h1
    obtain ⟨ha1, ha2, ha3⟩ := of_idErrs_nil h1p
    obtain ⟨-, hb2, hb3, hb4, hb5⟩ := of_fieldCodeErrs_nil h2p
    obtain ⟨-, hc2, hc3, hc4, hc5⟩ := of_fieldCodeErrs_nil h3p
    obtain ⟨dd, aa, hd1, hd2, hd3⟩ := of_dateErrs_nil h4p
    obtain ⟨he1, he2⟩ := of_priceErrs_nil h5p
    subst hr
    exact ⟨⟨ha1, ha2, ha3⟩, ⟨hb2, hb3, hb4, hb5⟩, ⟨hc2, hc3, hc4, hc5⟩,
      ⟨dd, aa, hd1, hd2, hd3⟩, he2⟩
  · intro fields
    rcases fields with _ | ⟨a, _ | ⟨b, _ | ⟨c, _ | ⟨d, _ | ⟨e, _ | ⟨f, _ | ⟨g, rest⟩⟩⟩⟩⟩⟩⟩
    · exact Or.inr ⟨_, rfl, by decide⟩
    · exact Or.inr ⟨_, rfl, by decide⟩
    · exact Or.inr ⟨_, rfl, by decide⟩
    · exact Or.inr ⟨_, rfl, by decide⟩
    · exact Or.inr ⟨_, rfl, by decide⟩
    · exact Or.inr ⟨_, rfl, by decide⟩
    · have hv : validate_flight_row [a, b, c, d, e, f] =
          validateSix (pyStrip a) (pyStrip b) (pyStrip c) (pyStrip d)
            (pyStrip e) (pyStrip f) := rfl
      rw [hv, validateSix_eq]
      split
      · exact Or.inl ⟨_, rfl⟩
      · next h => exact Or.inr ⟨_, rfl, h⟩
    · exact Or.inr ⟨_, rfl, by decide⟩

/-- C2 counterexample: the raw price `"nan"` parses, `nan <= 0` is false
in CPython, so the validator returns a record whose price is `nan` — not
a positive number (`0 < nan` is also false). -/
theorem C2_counterexample :
    validate_flight_row
        ["AB", "LHR", "JFK", "2025-11-14 10:30", "2025-11-14 13:05", "nan"] =
      (true, some ⟨"AB", "LHR", "JFK", "2025-11-14 10:30",
        "2025-11-14 13:05", PyFloat.nan⟩, []) ∧
    pyFloatLt pyZero PyFloat.nan = false := by
  exact ⟨by decide, rfl⟩

theorem C2_witness : pyFloatLe (PyFloat.finite 48999 2) pyZero = false :=
  (C2_amended.1 "BA2490" "LHR" "JFK" "2025-11-14 10:30" "2025-11-14 13:05"
    "489.99"
    ⟨"BA2490", "LHR", "JFK", "2025-11-14 10:30", "2025-11-14 13:05",
      PyFloat.finite 48999 2⟩
    (by decide)).2.2.2.2

theorem exactCheck_iff (s : String) (q : List (String × String)) (k : String) :
    exactCheck s q k = true ↔ ∀ v, qLookup q k = some v → s = v := by
  rcases h : qLookup q k with _ | v <;> simp [exactCheck, h]

theorem depCheck_iff (f : Flight) (q : List (String × String)) :
    depCheck f q = true ↔
      ∀ v, qLookup q "departure_datetime" = some v →
        ∃ fd qd, pyStrptime f.departure_datetime = some fd ∧
          pyStrptime v = some qd ∧ dtLe qd fd = true := by
  rcases h : qLookup q "departure_datetime" with _ | v
  · simp [depCheck, h]
  · rcases h1 : pyStrptime v with _ | qd <;>
      rcases h2 : pyStrptime f.departure_datetime with _ | fd <;>
        simp [depCheck, h, h1, h2, dtLe]

theorem arrCheck_iff (f : Flight) (q : List (String × String)) :
    arrCheck f q = true ↔
      ∀ v, qLookup q "arrival_datetime" = some v →
        ∃ fa qa, pyStrptime f.arrival_datetime = some fa ∧
          pyStrptime v = some qa ∧ dtLe fa qa = true := by
  rcases h : qLookup q "arrival_datetime" with _ | v
  · simp [arrCheck, h]
  · rcases h1 : pyStrptime v with _ | qa <;>
      rcases h2 : pyStrptime f.arrival_datetime with _ | fa <;>
        simp [arrCheck, h, h1, h2, dtLe]

theorem priceCheck_iff (f : Flight) (q : List (String × String)) :
    priceCheck f q = true ↔
      ∀ v, qLookup q "price" = some v →
        ∃ qp, pyParseFloat v = some qp ∧ pyFloatGt f.price qp = false := by
  rcases h : qLookup q "price" with _ | v
  · simp [priceCheck, h]
  · rcases h1 : pyParseFloat v with _ | qp <;> simp [priceCheck, h, h1]

/-- C6 (amended): a record matches exactly when every present constraint
is satisfied — exact text equality for `flight_id`/`origin`/
`destination`, parseable timestamps with query departure ≤ record
departure and record arrival ≤ query arrival — and the price constraint
is `record price not greater than query price` (identical to `≤` except
that a `nan` on either side satisfies not-greater vacuously).  Absent
keys impose no constraint, unknown keys are ignored, and the empty query
matches every record. -/
theorem C6_amended (f : Flight) (q : List (String × String)) :
    (flight_matches_query f q = true ↔ matchesSpecFixed f q) ∧
    flight_matches_query f [] = true := by
  constructor
  · unfold flight_matches_query matchesSpecFixed
    simp only [Bool.and_eq_true]
    rw [exactCheck_iff, exactCheck_iff, exactCheck_iff, depCheck_iff,
      arrCheck_iff, priceCheck_iff]
    tauto
  · rfl

/-- C6 counterexample: a record whose price is `nan` (obtainable from the
validator, e.g. from raw price `"nan"`) matches the query
`{"price": "100"}`, yet `nan ≤ 100` does not hold, so the claim's
"record price ≤ query price" characterisation of matching is false. -/
theorem C6_counterexample :
    flight_matches_query
        ⟨"BA2490", "LHR", "JFK", "2025-11-14 10:30", "2025-11-14 13:05",
          PyFloat.nan⟩
        [("price", "100")] = true ∧
    ¬ matchesSpec
        ⟨"BA2490", "LHR", "JFK", "2025-11-14 10:30", "2025-11-14 13:05",
          PyFloat.nan⟩
        [("price", "100")] := by
  constructor
  · decide
  · intro h
    obtain ⟨qp, hqp, hle⟩ := h.2.2.2.2.2 "100" rfl
    have : qp = PyFloat.finite 100 0 := by
      have : pyParseFloat "100" = some (PyFloat.finite 100 0) := by decide
      rw [this] at hqp
      exact (Option.some.injEq _ _ ▸ hqp).symm
    subst this
    exact absurd hle (by decide)

theorem C6_witness :
    flight_matches_query
      ⟨"BA2490", "LHR", "JFK", "2025-11-14 10:30", "2025-11-14 13:05",
        PyFloat.finite 48999 2⟩ [] = true :=
  (C6_amended
    ⟨"BA2490", "LHR", "JFK", "2025-11-14 10:30", "2025-11-14 13:05",
      PyFloat.finite 48999 2⟩ []).2

theorem dropWhile_head_not {α} (p : α → Bool) :
    ∀ (l : List α) (c : α) (cs : List α), l.dropWhile p = c :: cs → p c = false := by
  intro l
  induction l with
  | nil => intro c cs h; simp at h
  | cons a t ih =>
    intro c cs h
    rw [List.dropWhile_cons] at h
    split at h
    · exact ih _ _ h
    · next hp =>
      injection h with h1 h2
      subst h1
      simpa using hp

theorem dropWhile_eq_self_of_head {α} (p : α → Bool) (l : List α)
    (h : ∀ c cs, l = c :: cs → p c = false) : l.dropWhile p = l := by
  cases l with
  | nil => rfl
  | cons a t =>
    rw [List.dropWhile_cons, if_neg]
    simp [h a t rfl]

theorem stripList_eq_self (l : List Char)
    (h1 : ∀ c cs, l = c :: cs → pyWS c = false)
    (h2 : ∀ c cs, l.reverse = c :: cs → pyWS c = false) :
    stripList l = l := by
  unfold stripList
  rw [dropWhile_eq_self_of_head _ _ h1, dropWhile_eq_self_of_head _ _ h2,
    List.reverse_reverse]

theorem stripList_idem (l : List Char) :
    stripList (stripList l) = stripList l := by
  apply stripList_eq_self
  · intro c cs h
    have hB : ((l.dropWhile pyWS).reverse).dropWhile pyWS = cs.reverse ++ [c] := by
      have h3 := congrArg List.reverse h
      simpa [stripList] using h3
    obtain ⟨pre, hpre⟩ :=
      List.dropWhile_suffix (l := (l.dropWhile pyWS).reverse) (p := pyWS)
    rw [hB] at hpre
    have h4 : l.dropWhile pyWS = c :: (cs ++ pre.reverse) := by
      have h5 := congrArg List.reverse hpre
      simpa [List.reverse_append] using h5.symm
    exact dropWhile_head_not pyWS l c _ h4
  · intro c cs h
    have hB : ((l.dropWhile pyWS).reverse).dropWhile pyWS = c :: cs := by
      simpa [stripList] using h
    exact dropWhile_head_not pyWS _ c _ hB

theorem pyStrip_idem (s : String) : pyStrip (pyStrip s) = pyStrip s := by
  unfold pyStrip
  rw [show (String.mk (stripList s.data)).data = stripList s.data from rfl,
    stripList_idem]

/-- C10: the six fields of a row are stripped of surrounding whitespace
before any rule runs (re-stripping changes nothing), and an accepted
record stores exactly the trimmed field texts, with the price storing
the number parsed from the trimmed price text. -/
theorem C10_trimming :
    (∀ f1 f2 f3 f4 f5 f6 : String,
      validate_flight_row [f1, f2, f3, f4, f5, f6] =
        validate_flight_row [pyStrip f1, pyStrip f2, pyStrip f3, pyStrip f4,
          pyStrip f5, pyStrip f6]) ∧
    (∀ f1 f2 f3 f4 f5 f6 : String, ∀ r : Flight,
      validate_flight_row [f1, f2, f3, f4, f5, f6] = (true, some r, []) →
      r.flight_id = pyStrip f1 ∧ r.origin = pyStrip f2 ∧
        r.destination = pyStrip f3 ∧ r.departure_datetime = pyStrip f4 ∧
        r.arrival_datetime = pyStrip f5 ∧
        pyParseFloat (pyStrip f6) = some r.price) := by
  constructor
  · intro f1 f2 f3 f4 f5 f6
    show validateSix (pyStrip f1) (pyStrip f2) (pyStrip f3) (pyStrip f4)
        (pyStrip f5) (pyStrip f6) =
      validateSix (pyStrip (pyStrip f1)) (pyStrip (pyStrip f2))
        (pyStrip (pyStrip f3)) (pyStrip (pyStrip f4)) (pyStrip (pyStrip f5))
        (pyStrip (pyStrip f6))
    rw [pyStrip_idem, pyStrip_idem, pyStrip_idem, pyStrip_idem, pyStrip_idem,
      pyStrip_idem]
  · intro f1 f2 f3 f4 f5 f6 r h
    rw [show validate_flight_row [f1, f2, f3, f4, f5, f6] =
        validateSix (pyStrip f1) (pyStrip f2) (pyStrip f3) (pyStrip f4)
          (pyStrip f5) (pyStrip f6) from rfl,
      validateSix_valid] at h
    obtain ⟨hnil, hr⟩ := h
    unfold rowErrsOf at hnil
    obtain ⟨-, h5p⟩ := List.append_eq_nil.1 hnil
    obtain ⟨hp1, -⟩ := of_priceErrs_nil h5p
    subst hr
    exact ⟨rfl, rfl, rfl, rfl, rfl, hp1⟩

theorem C10_witness :
    validate_flight_row [" BA2490 ", " LHR ", "JFK", " 2025-11-14 10:30 ",
        "2025-11-14 13:05", " 489.99 "] =
      validate_flight_row ["BA2490", "LHR", "JFK", "2025-11-14 10:30",
        "2025-11-14 13:05", "489.99"] ∧
    pyParseFloat (pyStrip " 489.99 ") = some (PyFloat.finite 48999 2) := by
  constructor
  · have h := C10_trimming.1 " BA2490 " " LHR " "JFK" " 2025-11-14 10:30 "
      "2025-11-14 13:05" " 489.99 "
    rw [h]
    decide
  · exact (C10_trimming.2 " BA2490 " " LHR " "JFK" " 2025-11-14 10:30 "
      "2025-11-14 13:05" " 489.99 "
      ⟨"BA2490", "LHR", "JFK", "2025-11-14 10:30", "2025-11-14 13:05",
        PyFloat.finite 48999 2⟩
      (by decide)).2.2.2.2.2

theorem map_strip_header {row : List String} (h : row.map pyStrip = CSV_HEADER) :
    ∃ r1 r2 r3 r4 r5 r6, row = [r1, r2, r3, r4, r5, r6] ∧
      pyStrip r1 = "flight_id" ∧ pyStrip r2 = "origin" ∧
      pyStrip r3 = "destination" ∧ pyStrip r4 = "departure_datetime" ∧
      pyStrip r5 = "arrival_datetime" ∧ pyStrip r6 = "price" := by
  rcases row with _ | ⟨r1, _ | ⟨r2, _ | ⟨r3, _ | ⟨r4, _ | ⟨r5, _ | ⟨r6, _ | ⟨r7, rest⟩⟩⟩⟩⟩⟩⟩ <;>
    simp [CSV_HEADER] at h
  exact ⟨r1, r2, r3, r4, r5, r6, rfl, h.1, h.2.1, h.2.2.1, h.2.2.2.1,
    h.2.2.2.2.1, h.2.2.2.2.2⟩

theorem validate_header_row {row : List String}
    (h : row.map pyStrip = CSV_HEADER) :
    validate_flight_row row =
      (false, none,
        ["invalid flight_id", "flight_id too long (more than 8 characters)",
         "invalid origin code", "invalid destination code",
         "invalid date format", "invalid price value"]) := by
  obtain ⟨r1, r2, r3, r4, r5, r6, hrow, h1, h2, h3, h4, h5, h6⟩ :=
    map_strip_header h
  subst hrow
  show validateSix (pyStrip r1) (pyStrip r2) (pyStrip r3) (pyStrip r4)
      (pyStrip r5) (pyStrip r6) = _
  rw [h1, h2, h3, h4, h5, h6]
  decide

/-- C7: for a line whose split matches the expected header (and which is
neither blank nor a comment), the classifier consumes it silently and
sets the per-source flag when no header has been seen yet; once the flag
is set, the same line instead falls through to the Field Validator and is
reported as an invalid-row diagnostic carrying the six validation
reasons of the header text. -/
theorem C7_header_once (single : Bool) (path : String) (st : PState)
    (n : Nat) (raw : String) (row : List String)
    (hblank : pyStrip raw ≠ "")
    (hcomment : startsHash (pyLStrip raw) = false)
    (hsplit : pyCsvSplit raw = some row)
    (hheader : is_header_row row = true) :
    (st.seenHeader = false →
      processLine single path n raw st = { st with seenHeader := true }) ∧
    (st.seenHeader = true →
      processLine single path n raw st =
        { st with errs := st.errs ++
            [linePre single path n ++ raw ++ " → " ++
              String.intercalate ", "
                ["invalid flight_id",
                 "flight_id too long (more than 8 characters)",
                 "invalid origin code", "invalid destination code",
                 "invalid date format", "invalid price value"]] }) := by
  have hmap : row.map pyStrip = CSV_HEADER := of_decide_eq_true hheader
  constructor
  · intro hseen
    unfold processLine
    rw [if_neg hblank, if_neg (by simp [hcomment]), hsplit]
    simp [hseen, hheader]
  · intro hseen
    unfold processLine
    rw [if_neg hblank, if_neg (by simp [hcomment]), hsplit]
    simp only [hseen, Bool.not_true, Bool.false_and, Bool.false_eq_true,
      if_false]
    rw [validate_header_row hmap]

set_option maxRecDepth 4000 in
theorem C7_witness :
    processLine true "flights.csv" 2
        "flight_id,origin,destination,departure_datetime,arrival_datetime,price"
        ⟨[], [], true⟩ =
      ⟨[],
       ["Line 2: flight_id,origin,destination,departure_datetime,arrival_datetime,price → invalid flight_id, flight_id too long (more than 8 characters), invalid origin code, invalid destination code, invalid date format, invalid price value"],
       true⟩ := by
  have h := (C7_header_once true "flights.csv" ⟨[], [], true⟩ 2
    "flight_id,origin,destination,departure_datetime,arrival_datetime,price"
    CSV_HEADER (by decide) (by decide) (by decide) (by decide)).2 rfl
  rw [h]
  decide

theorem digitCh_isDigit {d : Nat} (hd : d < 10) : (digitCh d).isDigit = true := by
  interval_cases d <;> decide

theorem digitCh_val {d : Nat} (hd : d < 10) : (digitCh d).toNat - 48 = d := by
  interval_cases d <;> decide

theorem digitCh_ne_underscore {d : Nat} (hd : d < 10) :
    (digitCh d == '_') = false := by
  interval_cases d <;> decide

theorem digitCh_toLower {d : Nat} (hd : d < 10) :
    Char.toLower (digitCh d) = digitCh d := by
  interval_cases d <;> decide

theorem digitCh_not_ws {d : Nat} (hd : d < 10) : pyWS (digitCh d) = false := by
  interval_cases d <;> decide

theorem digitCh_ne_i {d : Nat} (hd : d < 10) : digitCh d ≠ 'i' := by
  interval_cases d <;> decide

theorem digitCh_ne_n {d : Nat} (hd : d < 10) : digitCh d ≠ 'n' := by
  interval_cases d <;> decide

theorem mem_natToDecStr {c : Char} {n : Nat} (h : c ∈ (natToDecStr n).data) :
    ∃ d, d < 10 ∧ c = digitCh d := by
  unfold natToDecStr at h
  split at h
  · refine ⟨0, by norm_num, ?_⟩
    simpa using h
  · next hn =>
    rw [show (String.mk (((Nat.digits 10 n).map digitCh).reverse)).data =
        ((Nat.digits 10 n).map digitCh).reverse from rfl] at h
    rw [List.mem_reverse] at h
    obtain ⟨d, hd, rfl⟩ := List.mem_map.1 h
    exact ⟨d, Nat.digits_lt_base (by norm_num) hd, rfl⟩

theorem natToDecStr_ne_nil (n : Nat) : (natToDecStr n).data ≠ [] := by
  unfold natToDecStr
  split
  · decide
  · next hn =>
    rw [show (String.mk (((Nat.digits 10 n).map digitCh).reverse)).data =
        ((Nat.digits 10 n).map digitCh).reverse from rfl]
    simp [Nat.digits_ne_nil_iff_ne_zero.2 hn]

theorem natToDecStr_isDigit {c : Char} {n : Nat}
    (h : c ∈ (natToDecStr n).data) : c.isDigit = true := by
  obtain ⟨d, hd, rfl⟩ := mem_natToDecStr h
  exact digitCh_isDigit hd

theorem foldl_digits_rev (ds : List Nat) (hds : ∀ d ∈ ds, d < 10) :
    ∀ acc : Nat,
      ((ds.map digitCh).reverse).foldl
        (fun a c => if c == '_' then a else a * 10 + (c.toNat - 48)) acc =
      acc * 10 ^ ds.length + Nat.ofDigits 10 ds := by
  induction ds with
  | nil => intro acc; simp [Nat.ofDigits_nil]
  | cons d tl ih =>
    intro acc
    have hd : d < 10 := hds d (List.mem_cons_self d tl)
    have htl : ∀ x ∈ tl, x < 10 := fun x hx => hds x (List.mem_cons_of_mem d hx)
    rw [List.map_cons, List.reverse_cons, List.foldl_append, ih htl acc]
    simp only [List.foldl_cons, List.foldl_nil, digitCh_ne_underscore hd,
      digitCh_val hd, Bool.false_eq_true, if_false]
    rw [Nat.ofDigits_cons]
    simp only [List.length_cons, pow_succ]
    ring

theorem digitsVal_natToDecStr (n : Nat) : digitsVal (natToDecStr n).data = n := by
  unfold natToDecStr
  split
  · next hn => subst hn; decide
  · next hn =>
    rw [show (String.mk (((Nat.digits 10 n).map digitCh).reverse)).data =
        ((Nat.digits 10 n).map digitCh).reverse from rfl]
    unfold digitsVal
    rw [foldl_digits_rev (Nat.digits 10 n)
      (fun d hd => Nat.digits_lt_base (by norm_num) hd) 0]
    simp [Nat.ofDigits_digits]

theorem digitRunOkAux_digits (l : List Char)
    (h : ∀ c ∈ l, c.isDigit = true) : digitRunOkAux false l = true := by
  induction l with
  | nil => rfl
  | cons c t ih =>
    have hc : c.isDigit = true := h c (List.mem_cons_self c t)
    have hcu : (c == '_') = false := by
      by_cases h2 : c = '_'
      · subst h2
        simp at hc
      · simp [h2]
    rw [digitRunOkAux, hcu]
    simp only [Bool.false_eq_true, if_false]
    rw [hc, ih (fun x hx => h x (List.mem_cons_of_mem c hx))]
    rfl

theorem digitRunOk_digits (l : List Char) (hne : l ≠ [])
    (h : ∀ c ∈ l, c.isDigit = true) : digitRunOk l = true := by
  cases l with
  | nil => exact absurd rfl hne
  | cons c t =>
    rw [digitRunOk]
    rw [h c (List.mem_cons_self c t),
      digitRunOkAux_digits t (fun x hx => h x (List.mem_cons_of_mem c hx))]
    rfl

theorem takeWhile_dropWhile_append {α} (p : α → Bool) (A B : List α)
    (hA : ∀ c ∈ A, p c = true)
    (hB : ∀ c cs, B = c :: cs → p c = false) :
    (A ++ B).takeWhile p = A ∧ (A ++ B).dropWhile p = B := by
  induction A with
  | nil =>
    cases B with
    | nil => exact ⟨rfl, rfl⟩
    | cons b bs =>
      have hb := hB b bs rfl
      constructor
      · rw [List.nil_append, List.takeWhile_cons, hb]
        rfl
      · rw [List.nil_append, List.dropWhile_cons, hb]
        rfl
  | cons a A' ih =>
    have ha : p a = true := hA a (List.mem_cons_self a A')
    obtain ⟨ih1, ih2⟩ := ih (fun c hc => hA c (List.mem_cons_of_mem a hc))
    constructor
    · rw [List.cons_append, List.takeWhile_cons, ha, ih1]
      simp
    · rw [List.cons_append, List.dropWhile_cons, ha]
      simpa using ih2

theorem span_append {α} (p : α → Bool) (A B : List α)
    (hA : ∀ c ∈ A, p c = true)
    (hB : ∀ c cs, B = c :: cs → p c = false) :
    (A ++ B).span p = (A, B) := by
  obtain ⟨h1, h2⟩ := takeWhile_dropWhile_append p A B hA hB
  rw [List.span_eq_take_drop, h1, h2]

theorem span_all {α} (p : α → Bool) (A : List α)
    (hA : ∀ c ∈ A, p c = true) : A.span p = (A, []) := by
  have := span_append p A [] hA (fun c cs h => by cases h)
  simpa using this

theorem isDigitU_of_digit {c : Char} (h : c.isDigit = true) :
    isDigitU c = true := by
  simp [isDigitU, h]

theorem splitSign_of_digit (c : Char) (t : List Char) (h : c.isDigit = true) :
    splitSign (c :: t) = (false, c :: t) := by
  unfold splitSign
  split
  · next heq =>
    injection heq with h1 h2
    rw [h1] at h
    exact absurd h (by decide)
  · next heq =>
    injection heq with h1 h2
    rw [h1] at h
    exact absurd h (by decide)
  · rfl

theorem map_toLower_self (l : List Char)
    (h : ∀ c ∈ l, Char.toLower c = c) : l.map Char.toLower = l := by
  induction l with
  | nil => rfl
  | cons a t ih =>
    rw [List.map_cons, h a (List.mem_cons_self a t),
      ih (fun c hc => h c (List.mem_cons_of_mem a hc))]

theorem parseNumber_printed (neg : Bool) (a k : Nat) :
    parseNumber neg
        ((natToDecStr a).data ++ 'e' :: '-' :: (natToDecStr k).data) =
      some (PyFloat.finite (if neg then -(a : Int) else (a : Int)) k) := by
  have hAd : ∀ c ∈ (natToDecStr a).data, isDigitU c = true :=
    fun c hc => isDigitU_of_digit (natToDecStr_isDigit hc)
  have hKd : ∀ c ∈ (natToDecStr k).data, c.isDigit = true :=
    fun c hc => natToDecStr_isDigit hc
  have hspan : ((natToDecStr a).data ++
      'e' :: '-' :: (natToDecStr k).data).span isDigitU =
      ((natToDecStr a).data, 'e' :: '-' :: (natToDecStr k).data) := by
    refine span_append _ _ _ hAd ?_
    intro c cs h
    injection h with h1 h2
    rw [← h1]
    decide
  have hED : parseExpDigits neg a 0 ('-' :: (natToDecStr k).data) =
      some (PyFloat.finite (if neg then -(a : Int) else (a : Int)) k) := by
    unfold parseExpDigits
    rw [show splitSign ('-' :: (natToDecStr k).data) =
      (true, (natToDecStr k).data) from rfl]
    split
    next esign r2 heq =>
      injection heq with he1 he2
      subst he1
      subst he2
      rw [span_all isDigitU (natToDecStr k).data
        (fun c hc => isDigitU_of_digit (hKd c hc))]
      split
      next ed r3 heq2 =>
        injection heq2 with hf1 hf2
        subst hf1
        subst hf2
        rw [digitRunOk_digits _ (natToDecStr_ne_nil k) hKd]
        simp only [List.isEmpty_nil, Bool.and_true, if_true]
        rw [digitsVal_natToDecStr]
        unfold mkFinite
        have h1 : (-(k : Int)).toNat = 0 := by omega
        have h2 : (- -(k : Int)).toNat = k := by omega
        rw [h1, h2]
        simp
  unfold parseNumber
  rw [hspan]
  split
  · next heq =>
    exfalso
    injection heq with h1 h2
    injection h2 with h3 h4
    exact absurd h3 (by decide)
  · next ip r heq =>
    injection heq with h1 h2
    subst h1
    subst h2
    rw [digitRunOk_digits _ (natToDecStr_ne_nil a)
      (fun c hc => natToDecStr_isDigit hc)]
    simp only [if_true]
    rw [digitsVal_natToDecStr]
    exact hED

theorem strData_append (a b : String) : (a ++ b).data = a.data ++ b.data := by
  cases a
  cases b
  rfl

theorem pyFloatToStr_finite_data (m : Int) (k : Nat) :
    (pyFloatToStr (PyFloat.finite m k)).data =
      (intToDecStr m).data ++ 'e' :: '-' :: (natToDecStr k).data := by
  show (intToDecStr m ++ "e-" ++ natToDecStr k).data = _
  rw [strData_append, strData_append, List.append_assoc]
  rfl

theorem stripList_eq_self_of_all (l : List Char)
    (h : ∀ c ∈ l, pyWS c = false) : stripList l = l := by
  refine stripList_eq_self l ?_ ?_
  · intro c cs hl
    exact h c (by rw [hl]; exact List.mem_cons_self c cs)
  · intro c cs hl
    refine h c (List.mem_reverse.1 ?_)
    rw [hl]
    exact List.mem_cons_self c cs

theorem no_ws_printed (v : PyFloat) :
    ∀ c ∈ (pyFloatToStr v).data, pyWS c = false := by
  cases v with
  | inf => decide
  | neginf => decide
  | nan => decide
  | finite m k =>
    intro c hc
    rw [pyFloatToStr_finite_data] at hc
    rcases List.mem_append.1 hc with h1 | h1
    · unfold intToDecStr at h1
      split at h1
      · rw [strData_append] at h1
        rcases List.mem_append.1 h1 with h2 | h2
        · have : c = '-' := by simpa using h2
          subst this
          decide
        · obtain ⟨d, hd, rfl⟩ := mem_natToDecStr h2
          exact digitCh_not_ws hd
      · obtain ⟨d, hd, rfl⟩ := mem_natToDecStr h1
        exact digitCh_not_ws hd
    · rcases List.mem_cons.1 h1 with rfl | h2
      · decide
      · rcases List.mem_cons.1 h2 with rfl | h3
        · decide
        · obtain ⟨d, hd, rfl⟩ := mem_natToDecStr h3
          exact digitCh_not_ws hd

theorem pyStrip_printed (v : PyFloat) :
    pyStrip (pyFloatToStr v) = pyFloatToStr v := by
  unfold pyStrip
  rw [stripList_eq_self_of_all _ (no_ws_printed v)]

theorem toLower_fixed_printed (aN k : Nat) :
    ∀ c ∈ (natToDecStr aN).data ++ 'e' :: '-' :: (natToDecStr k).data,
      Char.toLower c = c := by
  intro c hc
  rcases List.mem_append.1 hc with h1 | h1
  · obtain ⟨d, hd, rfl⟩ := mem_natToDecStr h1
    exact digitCh_toLower hd
  · rcases List.mem_cons.1 h1 with rfl | h2
    · decide
    · rcases List.mem_cons.1 h2 with rfl | h3
      · decide
      · obtain ⟨d, hd, rfl⟩ := mem_natToDecStr h3
        exact digitCh_toLower hd

theorem digit_head_ne (c : Char) (t : List Char) (hc : c.isDigit = true) :
    c :: t ≠ ['i', 'n', 'f'] ∧
      c :: t ≠ ['i', 'n', 'f', 'i', 'n', 'i', 't', 'y'] ∧
      c :: t ≠ ['n', 'a', 'n'] := by
  refine ⟨?_, ?_, ?_⟩ <;> intro h <;> injection h with h1 _ <;>
    rw [h1] at hc <;> exact absurd hc (by decide)

theorem printed_body_eq (aN k : Nat) :
    ∃ c t, (natToDecStr aN).data ++ 'e' :: '-' :: (natToDecStr k).data =
        c :: t ∧ c.isDigit = true := by
  rcases hl : (natToDecStr aN).data with _ | ⟨c, t⟩
  · exact absurd hl (natToDecStr_ne_nil aN)
  · refine ⟨c, t ++ 'e' :: '-' :: (natToDecStr k).data, by rw [List.cons_append], ?_⟩
    refine natToDecStr_isDigit (n := aN) ?_
    rw [hl]
    exact List.mem_cons_self c t

theorem pyParseFloat_printed (v : PyFloat) :
    pyParseFloat (pyFloatToStr v) = some v := by
  cases v with
  | inf => decide
  | neginf => decide
  | nan => decide
  | finite m k =>
    have hdata := pyFloatToStr_finite_data m k
    have hws : ∀ c ∈ (intToDecStr m).data ++
        'e' :: '-' :: (natToDecStr k).data, pyWS c = false := by
      rw [← hdata]
      exact no_ws_printed _
    obtain ⟨c, t, hbody, hcdig⟩ := printed_body_eq m.natAbs k
    have hmap : ((natToDecStr m.natAbs).data ++
        'e' :: '-' :: (natToDecStr k).data).map Char.toLower =
        (natToDecStr m.natAbs).data ++ 'e' :: '-' :: (natToDecStr k).data :=
      map_toLower_self _ (toLower_fixed_printed m.natAbs k)
    have hne := digit_head_ne c t hcdig
    unfold pyParseFloat
    rw [hdata, stripList_eq_self_of_all _ hws]
    by_cases hm : m < 0
    · have hA : (intToDecStr m).data =
          '-' :: (natToDecStr m.natAbs).data := by
        unfold intToDecStr
        rw [if_pos hm, strData_append]
        rfl
      rw [hA, List.cons_append]
      rw [show splitSign ('-' :: ((natToDecStr m.natAbs).data ++
          'e' :: '-' :: (natToDecStr k).data)) =
        (true, (natToDecStr m.natAbs).data ++
          'e' :: '-' :: (natToDecStr k).data) from rfl]
      split
      next neg1 cs1 heq =>
        injection heq with hg1 hg2
        subst hg1
        subst hg2
        rw [hmap]
        rw [if_neg, if_neg]
        · rw [parseNumber_printed]
          show some (PyFloat.finite (-(m.natAbs : Int)) k) =
            some (PyFloat.finite m k)
          have hval : -((m.natAbs : Int)) = m := by omega
          rw [hval]
        · rw [hbody]
          exact hne.2.2
        · rw [hbody]
          push_neg
          exact ⟨hne.1, hne.2.1⟩
    · have hA : (intToDecStr m).data = (natToDecStr m.natAbs).data := by
        unfold intToDecStr
        rw [if_neg hm]
      rw [hA, hbody]
      rw [splitSign_of_digit c t hcdig]
      split
      next neg1 cs1 heq =>
        injection heq with hg1 hg2
        subst hg1
        subst hg2
        rw [← hbody, hmap]
        rw [if_neg, if_neg]
        · rw [parseNumber_printed]
          show some (PyFloat.finite ((m.natAbs : Int)) k) =
            some (PyFloat.finite m k)
          have hval : ((m.natAbs : Int)) = m := by omega
          rw [hval]
        · rw [hbody]
          exact hne.2.2
        · rw [hbody]
          push_neg
          exact ⟨hne.1, hne.2.1⟩

/-- C9: validation is idempotent on valid data — serializing an accepted
record's six fields back to strings (string fields verbatim, price via
its float literal) and validating again succeeds with zero errors and
rebuilds the identical record. -/
theorem C9_idempotent (f1 f2 f3 f4 f5 f6 : String) (r : Flight)
    (h : validate_flight_row [f1, f2, f3, f4, f5, f6] = (true, some r, [])) :
    validate_flight_row (serializeFlight r) = (true, some r, []) := by
  rw [show validate_flight_row [f1, f2, f3, f4, f5, f6] =
      validateSix (pyStrip f1) (pyStrip f2) (pyStrip f3) (pyStrip f4)
        (pyStrip f5) (pyStrip f6) from rfl,
    validateSix_valid] at h
  obtain ⟨hnil, hr⟩ := h
  unfold rowErrsOf at hnil
  obtain ⟨h14, h5p⟩ := List.append_eq_nil.1 hnil
  obtain ⟨hp1, hp2⟩ := of_priceErrs_nil h5p
  have hP := pyParseFloat_printed (priceParse (pyStrip f6)).1
  have hpp : priceParse (pyFloatToStr (priceParse (pyStrip f6)).1) =
      ((priceParse (pyStrip f6)).1,
        if pyFloatLe (priceParse (pyStrip f6)).1 pyZero = true then
          ["negative price value"] else []) := by
    rw [priceParse.eq_def, hP]
  have hppr2 : (priceParse (pyFloatToStr (priceParse (pyStrip f6)).1)).2 = [] := by
    rw [hpp]
    simp [hp2]
  have hppr1 : (priceParse (pyFloatToStr (priceParse (pyStrip f6)).1)).1 =
      (priceParse (pyStrip f6)).1 := by
    rw [hpp]
  subst hr
  show validate_flight_row [pyStrip f1, pyStrip f2, pyStrip f3, pyStrip f4,
    pyStrip f5, pyFloatToStr (priceParse (pyStrip f6)).1] = _
  rw [show validate_flight_row [pyStrip f1, pyStrip f2, pyStrip f3,
      pyStrip f4, pyStrip f5, pyFloatToStr (priceParse (pyStrip f6)).1] =
      validateSix (pyStrip (pyStrip f1)) (pyStrip (pyStrip f2))
        (pyStrip (pyStrip f3)) (pyStrip (pyStrip f4)) (pyStrip (pyStrip f5))
        (pyStrip (pyFloatToStr (priceParse (pyStrip f6)).1)) from rfl]
  rw [pyStrip_idem f1, pyStrip_idem f2, pyStrip_idem f3, pyStrip_idem f4,
    pyStrip_idem f5, pyStrip_printed]
  rw [validateSix_valid]
  constructor
  · unfold rowErrsOf
    rw [h14, hppr2]
    rfl
  · rw [hppr1]

theorem C9_witness :
    validate_flight_row (serializeFlight
        ⟨"BA2490", "LHR", "JFK", "2025-11-14 10:30", "2025-11-14 13:05",
          PyFloat.finite 48999 2⟩) =
      (true, some ⟨"BA2490", "LHR", "JFK", "2025-11-14 10:30",
        "2025-11-14 13:05", PyFloat.finite 48999 2⟩, []) :=
  C9_idempotent "BA2490" "LHR" "JFK" "2025-11-14 10:30" "2025-11-14 13:05"
    "489.99" _ (by decide)
